import Mathlib

/-!
Verification development for the asus-router-prometheus-exporter repository.

The definitions below are a shallow embedding of the Python sources:
  - asus_router_prometheus.py  (delta reconciliation, CPU/interface counters, percent gauge,
    per-domain collection control flow)
  - asus_router_client.py      (software-mode classification, WAN status, reboot schedule scan,
    network WAN summary)
  - asus_router_models.py      (enumerations, WanConnectionInfo.is_connected,
    RebootScheduleConf.is_weekday_enabled / set_time)
  - asus_router_utils.py       (safe_int)

Python ints are modelled as Lean Int (arbitrary precision in both languages); Python floats
used for the percent gauge are modelled as Rat (the operations involved — division,
multiplication by 100, clamping — are order-exact, which is what the claims are about).
-/

namespace Asus

/-- `RouterMetricsCollector._calculate_delta` (asus_router_prometheus.py lines 431-440):

    if current >= previous:
        return current - previous
    return 0
-/
def calculateDelta (current previous : Int) : Int :=
  if current ≥ previous then current - previous else 0

/-- Modelled from the spec (not present in the code): the spec's `reconcile` policy for the
`current < previous` case — try wrap-around at candidate bit-widths 64, 48, 32 in order,
accepting the first width `w` with `previous < 2^w` whose `delta = current + (2^w - previous)`
is non-negative; if no candidate applies, hard reset with `delta = current`.  This definition
exists only to compare the spec's stated algorithm against `calculateDelta`. -/
def reconcileSpec (current previous : Int) : Int :=
  if current ≥ previous then current - previous
  else
    let widths : List Nat := [64, 48, 32]
    match widths.find? (fun w => previous < (2 : Int) ^ w && current + ((2 : Int) ^ w - previous) ≥ 0) with
    | some w => current + ((2 : Int) ^ w - previous)
    | none => current

/-- Percent gauge from `_collect_cpu_metrics` (asus_router_prometheus.py lines 672-678):

    if dt > 0:
        pct = max(0.0, min(100.0, (du / dt) * 100.0))
        ...percent_child(...).set(pct)
    else:
        ...percent_child(...).set(float("nan"))

`none` models the NaN (absent) marking. -/
def percentGauge (du dt : Int) : Option ℚ :=
  if dt > 0 then some (max 0 (min 100 ((du : ℚ) / (dt : ℚ) * 100))) else none

/-- Per-CPU result of one collection cycle in `_collect_cpu_metrics`
(asus_router_prometheus.py lines 657-683). -/
structure CpuCycleResult where
  usageInc : Int
  totalInc : Int
  percent : Option ℚ
  newPrev : Int × Int
  deriving DecidableEq

/-- One CPU series step of `_collect_cpu_metrics` (asus_router_prometheus.py lines 657-683):
`prev` is `previous_cpu_samples.get(cpu_id)` as a `(usage, total)` pair, `cur` the freshly
decoded `(usage, total)`.  On a first sample (`prev is None`) no counter `inc` happens at all
(modelled as increments 0), percent is set to NaN, and the raw sample is stored as baseline
(line 683 runs unconditionally). -/
def cpuCollectOne (prev : Option (Int × Int)) (cur : Int × Int) : CpuCycleResult :=
  match prev with
  | some p =>
    let du := calculateDelta cur.1 p.1
    let dt := calculateDelta cur.2 p.2
    { usageInc := max 0 du
      totalInc := max 0 dt
      percent := percentGauge du dt
      newPrev := cur }
  | none =>
    { usageInc := 0
      totalInc := 0
      percent := none
      newPrev := cur }

/-- `ThroughputInfo` (asus_router_models.py lines 56-59). -/
structure ThroughputInfo where
  total_upload_bytes : Int
  total_download_bytes : Int
  deriving DecidableEq

/-- `ThroughputSample` (asus_router_prometheus.py lines 24-28). -/
structure ThroughputSample where
  tx : Int
  rx : Int
  deriving DecidableEq

/-- Per-interface sample snapshot taken by `_create_network_samples`
(asus_router_prometheus.py lines 442-468). -/
def createSample (t : ThroughputInfo) : ThroughputSample :=
  { tx := t.total_upload_bytes, rx := t.total_download_bytes }

/-- Per-interface deltas computed by `_update_interface_metrics`
(asus_router_prometheus.py lines 502-514): when the interface has no previous sample
(`interface_id in prev_interfaces` is false) both deltas are 0 and `inc(0)` is applied. -/
def interfaceCollectOne (prev : Option ThroughputSample) (cur : ThroughputInfo) : Int × Int :=
  match prev with
  | some p => (calculateDelta cur.total_upload_bytes p.tx,
               calculateDelta cur.total_download_bytes p.rx)
  | none => (0, 0)

/-- One full per-interface cycle: the deltas applied to the tx/rx counters, and the baseline
stored for the next cycle (at the end of `_collect_network_metrics`, line 764,
`previous_network_samples` is rebuilt from the current snapshot). -/
def interfaceSeriesCycle (prev : Option ThroughputSample) (cur : ThroughputInfo) :
    (Int × Int) × ThroughputSample :=
  (interfaceCollectOne prev cur, createSample cur)

/-- Cross-cycle state of one published counter series: last observed raw value and the
accumulated published counter value (see `previous_cpu_samples` /
`previous_network_samples` plus the Prometheus counter children). -/
structure SeriesState where
  prevRaw : Option Int
  published : Int
  deriving DecidableEq

/-- One cycle of an interface byte-counter series (bridge/wired/internet/wireless paths,
asus_router_prometheus.py lines 470-515): the counter child is incremented by the delta
(0 on first observation), and the current raw value becomes the stored baseline. -/
def interfaceStep (st : SeriesState) (cur : Int) : SeriesState :=
  match st.prevRaw with
  | none => { prevRaw := some cur, published := st.published + 0 }
  | some p => { prevRaw := some cur, published := st.published + calculateDelta cur p }

/-- One cycle of a CPU tick counter series (asus_router_prometheus.py lines 664-683):
on subsequent scrapes the counter child is incremented by `max(0, delta)`; on the first
sample no increment occurs; the raw sample is always stored. -/
def cpuStep (st : SeriesState) (cur : Int) : SeriesState :=
  match st.prevRaw with
  | none => { prevRaw := some cur, published := st.published }
  | some p => { prevRaw := some cur, published := st.published + max 0 (calculateDelta cur p) }

/-- Run a counter series across a sequence of raw observations (one per cycle). -/
def runSeries (step : SeriesState → Int → SeriesState) (st : SeriesState)
    (obs : List Int) : SeriesState :=
  obs.foldl step st

/-- `SwMode` (asus_router_models.py lines 212-240). -/
inductive SwMode where
  | RE
  | AP
  | MB
  | EW2
  | EW5
  | HS
  | RT
  deriving DecidableEq

/-- `safe_int` (asus_router_utils.py lines 11-15): `int(value)` with fallback 0 on a
missing/unparsable value.  The raw nvram value is modelled as `Option Int`: `none` stands
for a value on which `int(...)` raises (missing key default or non-numeric string). -/
def safe_int (value : Option Int) : Int :=
  value.getD 0

/-- The decision chain of `get_sw_mode` (asus_router_client.py lines 287-310) over the three
already-converted integer fields.  The source's `wlc_psta == ""` disjunct (line 291) is dead
code — `wlc_psta` is always an `int` after `safe_int` — and is therefore omitted. -/
def get_sw_mode_classify (sw_mode wlc_psta wlc_express : Int) : SwMode :=
  if ((sw_mode == 2 && wlc_psta == 0) || (sw_mode == 3 && wlc_psta == 2)) && wlc_express == 0 then
    SwMode.RE
  else if sw_mode == 3 && wlc_psta == 0 then
    SwMode.AP
  else if (sw_mode == 3 && (wlc_psta == 1 || wlc_psta == 3) && wlc_express == 0) ||
          (sw_mode == 2 && wlc_psta == 1 && wlc_express == 0) then
    SwMode.MB
  else if sw_mode == 2 && wlc_psta == 0 && wlc_express == 1 then
    SwMode.EW2
  else if sw_mode == 2 && wlc_psta == 0 && wlc_express == 2 then
    SwMode.EW5
  else if sw_mode == 5 then
    SwMode.HS
  else
    SwMode.RT

/-- `get_sw_mode` (asus_router_client.py lines 281-310): raw `wlc_psta` / `wlc_express`
nvram values go through `safe_int`, then the decision chain runs. -/
def get_sw_mode (sw_mode : Int) (wlc_psta_raw wlc_express_raw : Option Int) : SwMode :=
  get_sw_mode_classify sw_mode (safe_int wlc_psta_raw) (safe_int wlc_express_raw)

/-- The decision table of `get_sw_mode` as an ordered rule list (guard, mode), one entry per
`if`/`elif` branch of asus_router_client.py lines 288-308. -/
def swModeTable : List ((Int → Int → Int → Bool) × SwMode) :=
  [ (fun s p e => ((s == 2 && p == 0) || (s == 3 && p == 2)) && e == 0, SwMode.RE),
    (fun s p _ => s == 3 && p == 0, SwMode.AP),
    (fun s p e => (s == 3 && (p == 1 || p == 3) && e == 0) ||
                  (s == 2 && p == 1 && e == 0), SwMode.MB),
    (fun s p e => s == 2 && p == 0 && e == 1, SwMode.EW2),
    (fun s p e => s == 2 && p == 0 && e == 2, SwMode.EW5),
    (fun s _ _ => s == 5, SwMode.HS) ]

/-- Top-to-bottom, first-match-wins evaluation of a rule table, with a default. -/
def firstMatch : List ((Int → Int → Int → Bool) × SwMode) → SwMode → Int → Int → Int → SwMode
  | [], dflt, _, _, _ => dflt
  | (g, m) :: rest, dflt, s, p, e => if g s p e then m else firstMatch rest dflt s p e

/-- `WanState` (asus_router_models.py lines 306-311). -/
inductive WanState where
  | IDLE
  | CONNECTING
  | CONNECTED
  | ERROR
  | DISABLED
  deriving DecidableEq

/-- `WanSubState` (asus_router_models.py lines 313-318). -/
inductive WanSubState where
  | OK
  | PPP_FAIL
  | BAD_CREDENTIALS
  | DHCP_FAIL
  | IP_CONFLICT
  deriving DecidableEq

/-- `WanAuxState` (asus_router_models.py lines 320-322). -/
inductive WanAuxState where
  | CONNECTED
  | DISCONNECTED
  deriving DecidableEq

/-- `LinkInternet` (asus_router_models.py lines 324-327). -/
inductive LinkInternet where
  | OFFLINE
  | TESTING
  | ONLINE
  deriving DecidableEq

/-- `WanMode` (asus_router_models.py lines 280-283). -/
inductive WanMode where
  | FAIL_OVER
  | FAIL_BACK
  | LOAD_BALANCE
  deriving DecidableEq

/-- `WanStatus` (asus_router_models.py lines 275-278). -/
inductive WanStatus where
  | STANDBY
  | CONNECTED
  | DISCONNECTED
  deriving DecidableEq

/-- `LanState` (asus_router_models.py lines 351-353). -/
inductive LanState where
  | DISCONNECTED
  | CONNECTED
  deriving DecidableEq

/-- `LanProtoType` (asus_router_models.py lines 355-360). -/
inductive LanProtoType where
  | DHCP
  | STATIC
  | PPPoE
  | L2TP
  | PPTP
  deriving DecidableEq

/-- `WanConnectionInfo` (asus_router_models.py lines 330-335). -/
structure WanConnectionInfo where
  state : WanState
  substate : WanSubState
  auxstate : WanAuxState
  link_internet : LinkInternet
  deriving DecidableEq

/-- `WanConnectionInfo.is_connected` (asus_router_models.py lines 337-344): logical AND of
four exact-value checks, in the source's order. -/
def WanConnectionInfo.is_connected (c : WanConnectionInfo) : Bool :=
  c.link_internet == LinkInternet.ONLINE &&
  c.state == WanState.CONNECTED &&
  c.substate == WanSubState.OK &&
  c.auxstate == WanAuxState.CONNECTED

/-- `DualWanInfo` (asus_router_models.py lines 153-161), restricted to the fields the
modelled logic reads (`wan_origins`, `wan0_enable`, `wan1_enable` are consumed only by the
proto-override path, which is outside the claims). -/
structure DualWanInfo where
  enabled : Bool
  active_wan_unit : Int
  wans_mode : WanMode
  deriving DecidableEq

/-- `WanInfo` (asus_router_models.py lines 285-291), restricted to the fields computed by
asus_router_client.py lines 350-360 (`ipaddr`/`proto` enrichment needs further fetches and
is outside the claims). -/
structure WanInfo where
  status : WanStatus
  connection_info : WanConnectionInfo
  active : Bool
  deriving DecidableEq

/-- `get_wan_info` status/active computation (asus_router_client.py lines 350-360):

    status = WanStatus.CONNECTED if wan_connection_info.is_connected else WanStatus.DISCONNECTED
    if (dual_wan_info.enabled
            and dual_wan_info.active_wan_unit != wan_index
            and dual_wan_info.wans_mode in [WanMode.FAIL_BACK, WanMode.FAIL_OVER]):
        status = WanStatus.STANDBY
-/
def get_wan_info (dual : DualWanInfo) (conn : WanConnectionInfo) (wan_index : Int) : WanInfo :=
  let status := if conn.is_connected then WanStatus.CONNECTED else WanStatus.DISCONNECTED
  let status :=
    if dual.enabled = true ∧ dual.active_wan_unit ≠ wan_index ∧
       (dual.wans_mode = WanMode.FAIL_BACK ∨ dual.wans_mode = WanMode.FAIL_OVER)
    then WanStatus.STANDBY else status
  { status := status
    connection_info := conn
    active := dual.active_wan_unit == wan_index }

/-- `LanInfo` (asus_router_models.py lines 362-366). -/
structure LanInfo where
  state : LanState
  ipaddr : String
  proto : LanProtoType
  deriving DecidableEq

/-- `NetworkWanInfo` (asus_router_models.py lines 293-300). -/
structure NetworkWanInfo where
  mode : SwMode
  link_internet : LinkInternet
  dual_wan_info : Option DualWanInfo
  primary_wan : Option WanInfo
  secondary_wan : Option WanInfo
  lan_info : Option LanInfo
  deriving DecidableEq

/-- `get_network_wan_info` (asus_router_client.py lines 376-396), with the router fetches
replaced by explicit arguments: `sw_mode_raw`, `wlc_psta_raw`, `wlc_express_raw` are the raw
fields `get_sw_mode` consumes; `dual`, `conn0`, `conn1` are the values `get_dual_wan_info` /
`get_wan_connection_info` would decode; `lan_ipaddr`, `lan_proto` the decoded LAN nvram
fields of the AP branch. -/
def get_network_wan_info (sw_mode_raw : Int) (wlc_psta_raw wlc_express_raw : Option Int)
    (link_internet : LinkInternet) (dual : DualWanInfo)
    (conn0 conn1 : WanConnectionInfo) (lan_ipaddr : String) (lan_proto : LanProtoType) :
    NetworkWanInfo :=
  let sw_mode := get_sw_mode sw_mode_raw wlc_psta_raw wlc_express_raw
  let base : NetworkWanInfo :=
    { mode := sw_mode
      link_internet := link_internet
      dual_wan_info := none
      primary_wan := none
      secondary_wan := none
      lan_info := none }
  if sw_mode = SwMode.RT then
    { base with
      primary_wan := some (get_wan_info dual conn0 0)
      dual_wan_info := some dual
      secondary_wan := if dual.enabled then some (get_wan_info dual conn1 1) else none }
  else if sw_mode = SwMode.AP then
    { base with
      lan_info := some { state := LanState.CONNECTED, ipaddr := lan_ipaddr, proto := lan_proto } }
  else
    base

/-- `RebootScheduleConf` (asus_router_models.py lines 33-44). -/
structure RebootScheduleConf where
  weekday_mask : Nat
  hh : Nat
  mm : Nat
  deriving DecidableEq

/-- `RebootScheduleConf.is_weekday_enabled` (asus_router_models.py lines 42-44):

    weekday_index_asus = (weekday + 1) % 7
    return ((self.weekday_mask >> (6 - weekday_index_asus)) & 1) == 1
-/
def RebootScheduleConf.is_weekday_enabled (c : RebootScheduleConf) (weekday : Nat) : Bool :=
  ((c.weekday_mask >>> (6 - (weekday + 1) % 7)) &&& 1) == 1

/-- Python `datetime` restricted to the fields the reboot-schedule scan reads and writes.
`day` is an absolute day count whose value mod 7 is Python's `weekday()` (0 = Monday);
adding `timedelta(days=n)` adds `n` to it. -/
structure PyDateTime where
  day : Nat
  hour : Nat
  minute : Nat
  second : Nat
  microsecond : Nat
  deriving DecidableEq

/-- Python `datetime.weekday()`. -/
def PyDateTime.weekday (d : PyDateTime) : Nat :=
  d.day % 7

/-- `systime + timedelta(days=n)`. -/
def PyDateTime.addDays (d : PyDateTime) (n : Nat) : PyDateTime :=
  { d with day := d.day + n }

/-- Microseconds since the start of day 0; `datetime` comparison and subtraction are carried
out on this value. -/
def PyDateTime.toMicros (d : PyDateTime) : Nat :=
  (((d.day * 24 + d.hour) * 60 + d.minute) * 60 + d.second) * 1000000 + d.microsecond

/-- `RebootScheduleConf.set_time` (asus_router_models.py lines 46-47):
`dt.replace(hour=self.hh, minute=self.mm, second=0, microsecond=0)`. -/
def RebootScheduleConf.set_time (c : RebootScheduleConf) (dt : PyDateTime) : PyDateTime :=
  { dt with hour := c.hh, minute := c.mm, second := 0, microsecond := 0 }

/-- `RebootScheduleInfo` (asus_router_models.py lines 50-54). -/
structure RebootScheduleInfo where
  next_at : PyDateTime
  until_ms : Int
  schedule : RebootScheduleConf
  deriving DecidableEq

/-- One iteration of the scan loop of `get_reboot_schedule_time`
(asus_router_client.py lines 104-114) at day offset `delta`; `none` means the loop
continues with the next offset.
`until_ms = max(0, int((candidate - systime).total_seconds() * 1000))` is modelled as the
exact microsecond difference divided by 1000 and truncated toward zero, which is what
Python's `int(...)` computes wherever the source's float arithmetic is exact. -/
def scanOffset (conf : RebootScheduleConf) (systime : PyDateTime) (delta : Nat) :
    Option RebootScheduleInfo :=
  let day_dt := systime.addDays delta
  if conf.is_weekday_enabled day_dt.weekday then
    let candidate := conf.set_time day_dt
    if delta > 0 ∨ systime.toMicros ≤ candidate.toMicros then
      some { next_at := candidate
             until_ms := max 0 (Int.tdiv ((candidate.toMicros : Int) - (systime.toMicros : Int)) 1000)
             schedule := conf }
    else none
  else none

/-- The `for delta in range(8)` loop of `get_reboot_schedule_time`: try offsets
`first, first + 1, ...` while `fuel` iterations remain. -/
def rebootScan (conf : RebootScheduleConf) (systime : PyDateTime) :
    Nat → Nat → Option RebootScheduleInfo
  | _, 0 => none
  | delta, fuel + 1 =>
    match scanOffset conf systime delta with
    | some r => some r
    | none => rebootScan conf systime (delta + 1) fuel

/-- `get_reboot_schedule_time` (asus_router_client.py lines 94-115) after the capability and
enable gating: the forward scan over day offsets 0..7. -/
def get_reboot_schedule_time (conf : RebootScheduleConf) (systime : PyDateTime) :
    Option RebootScheduleInfo :=
  rebootScan conf systime 0 8

/-- The metric domains collected by `collect_all_metrics`
(asus_router_prometheus.py lines 525-545), in collection order. -/
inductive Domain where
  | router_info
  | temperature
  | cpu
  | memory
  | network
  | wan
  | wireless
  deriving DecidableEq

/-- Which client fetches succeed in one cycle: `false` means the corresponding
`self.client.get_*` call raises (timeout, auth error, malformed payload). -/
structure ClientCycle where
  info_ok : Bool
  product_id_empty : Bool
  temp_ok : Bool
  cpu_ok : Bool
  memory_ok : Bool
  netdev_ok : Bool
  wan_ok : Bool
  wireless_ok : Bool
  deriving DecidableEq

/-- Outcome of one `collect_all_metrics` call: the domain collectors that ran to completion,
the number of `scrape_errors_total` increments, and whether an exception propagated out of
`collect_all_metrics`.  The loop in `create_app` (asus_router_prometheus.py lines 887-896)
re-raises such an exception past the `while` loop, so `raised = true` is fatal to the
process. -/
structure CycleOutcome where
  completed : List Domain
  errors : Nat
  raised : Bool
  deriving DecidableEq

/-- `_collect_temperature_metrics` (asus_router_prometheus.py lines 630-640): the whole body
sits in `try/except`, so a failed fetch never propagates. -/
def collectTemperature (_fetch_ok : Bool) : Except Unit Unit :=
  Except.ok ()

/-- `_collect_cpu_metrics` (asus_router_prometheus.py lines 642-685): the fetch is wrapped in
`try/except` with an early `return`; the rest of the body is pure bookkeeping. -/
def collectCpu (_fetch_ok : Bool) : Except Unit Unit :=
  Except.ok ()

/-- `_collect_memory_metrics` (asus_router_prometheus.py lines 687-717): the whole body sits
in `try/except`, so a failed fetch never propagates. -/
def collectMemory (_fetch_ok : Bool) : Except Unit Unit :=
  Except.ok ()

/-- `_collect_network_metrics` (asus_router_prometheus.py lines 719-770): the fetch is
wrapped in `try/except` with an early `return`. -/
def collectNetwork (_fetch_ok : Bool) : Except Unit Unit :=
  Except.ok ()

/-- `_collect_wan_info_metrics` (asus_router_prometheus.py lines 547-578): no exception
handler — a failed fetch propagates to the caller. -/
def collectWanInfo (fetch_ok : Bool) : Except Unit Unit :=
  if fetch_ok then Except.ok () else Except.error ()

/-- `_collect_wireless_metrics` (asus_router_prometheus.py lines 772-781): no exception
handler — a failed fetch propagates to the caller. -/
def collectWireless (fetch_ok : Bool) : Except Unit Unit :=
  if fetch_ok then Except.ok () else Except.error ()

/-- Run the domain collectors in order, as the body of `collect_all_metrics`
(asus_router_prometheus.py lines 536-541) does: the first propagating exception reaches the
outer `except` (lines 542-545), which increments `scrape_errors_total` and re-raises,
skipping every later domain. -/
def runDomains : List (Domain × Except Unit Unit) → List Domain × Nat × Bool
  | [] => ([], 0, false)
  | (d, Except.ok ()) :: rest =>
    let (c, e, r) := runDomains rest
    (d :: c, e, r)
  | (_, Except.error ()) :: _ => ([], 1, true)

/-- Control-flow embedding of `collect_all_metrics` (asus_router_prometheus.py
lines 525-545): `_collect_router_info` (822-855) has no handler, so its failure is counted
by the outer `except` and re-raised before any other domain runs; an empty product id
returns early (532-534); then the six domain collectors run in order with the
exception-handling each of them implements internally. -/
def collect_all_metrics (c : ClientCycle) : CycleOutcome :=
  if c.info_ok = false then
    { completed := [], errors := 1, raised := true }
  else if c.product_id_empty then
    { completed := [Domain.router_info], errors := 0, raised := false }
  else
    let (rest, errs, raised) := runDomains
      [(Domain.temperature, collectTemperature c.temp_ok),
       (Domain.cpu, collectCpu c.cpu_ok),
       (Domain.memory, collectMemory c.memory_ok),
       (Domain.network, collectNetwork c.netdev_ok),
       (Domain.wan, collectWanInfo c.wan_ok),
       (Domain.wireless, collectWireless c.wireless_ok)]
    { completed := Domain.router_info :: rest, errors := errs, raised := raised }

lemma calculateDelta_nonneg (current previous : Int) : 0 ≤ calculateDelta current previous := by
  unfold calculateDelta
  split <;> omega

lemma interfaceStep_published_le (st : SeriesState) (cur : Int) :
    st.published ≤ (interfaceStep st cur).published := by
  unfold interfaceStep
  cases st.prevRaw with
  | none => simp
  | some p => simpa using calculateDelta_nonneg cur p

lemma cpuStep_published_le (st : SeriesState) (cur : Int) :
    st.published ≤ (cpuStep st cur).published := by
  unfold cpuStep
  cases st.prevRaw with
  | none => simp
  | some p =>
    have := le_max_left (0 : Int) (calculateDelta cur p)
    simp only []
    omega

lemma runSeries_published_le (step : SeriesState → Int → SeriesState)
    (hstep : ∀ st cur, st.published ≤ (step st cur).published)
    (st : SeriesState) (obs : List Int) :
    st.published ≤ (runSeries step st obs).published := by
  induction obs generalizing st with
  | nil => exact le_rfl
  | cons a l ih => exact le_trans (hstep st a) (ih (step st a))

lemma firstMatch_eq_default (rules : List ((Int → Int → Int → Bool) × SwMode))
    (dflt : SwMode) (s p e : Int) (h : ∀ r ∈ rules, r.1 s p e = false) :
    firstMatch rules dflt s p e = dflt := by
  induction rules with
  | nil => rfl
  | cons r rest ih =>
    obtain ⟨g, m⟩ := r
    have hg : g s p e = false := h _ (List.mem_cons_self _ _)
    simp only [firstMatch, hg, Bool.false_eq_true, if_false]
    exact ih fun r hr => h r (List.mem_cons_of_mem _ hr)

lemma is_connected_iff (c : WanConnectionInfo) :
    c.is_connected = true ↔
      (c.state = WanState.CONNECTED ∧ c.substate = WanSubState.OK ∧
       c.auxstate = WanAuxState.CONNECTED ∧ c.link_internet = LinkInternet.ONLINE) := by
  simp only [WanConnectionInfo.is_connected, Bool.and_eq_true, beq_iff_eq]
  tauto

lemma rebootScan_eq_none (conf : RebootScheduleConf) (systime : PyDateTime)
    (h : ∀ δ, scanOffset conf systime δ = none) :
    ∀ first fuel, rebootScan conf systime first fuel = none := by
  intro first fuel
  induction fuel generalizing first with
  | zero => rfl
  | succ n ih =>
    unfold rebootScan
    rw [h first]
    exact ih (first + 1)

lemma rebootScan_some (conf : RebootScheduleConf) (systime : PyDateTime)
    (first fuel : Nat) (r : RebootScheduleInfo)
    (h : rebootScan conf systime first fuel = some r) :
    ∃ δ, first ≤ δ ∧ δ < first + fuel ∧ scanOffset conf systime δ = some r ∧
      ∀ δ', first ≤ δ' → δ' < δ → scanOffset conf systime δ' = none := by
  induction fuel generalizing first with
  | zero => exact absurd h (by simp [rebootScan])
  | succ n ih =>
    unfold rebootScan at h
    rcases hscan : scanOffset conf systime first with _ | r'
    · rw [hscan] at h
      obtain ⟨δ, h1, h2, h3, h4⟩ := ih (first + 1) h
      refine ⟨δ, by omega, by omega, h3, fun δ' hle hlt => ?_⟩
      rcases Nat.eq_or_lt_of_le hle with heq | hgt
      · exact heq ▸ hscan
      · exact h4 δ' hgt hlt
    · rw [hscan] at h
      refine ⟨first, le_rfl, by omega, ?_, fun δ' hle hlt => by omega⟩
      rw [hscan]
      exact h

lemma scanOffset_some_spec (conf : RebootScheduleConf) (systime : PyDateTime)
    (δ : Nat) (r : RebootScheduleInfo) (h : scanOffset conf systime δ = some r) :
    conf.is_weekday_enabled (systime.addDays δ).weekday = true ∧
    r.next_at = conf.set_time (systime.addDays δ) ∧
    (δ = 0 → systime.toMicros ≤ r.next_at.toMicros) ∧
    r.until_ms =
      max 0 (Int.tdiv ((r.next_at.toMicros : Int) - (systime.toMicros : Int)) 1000) ∧
    r.schedule = conf := by
  simp only [scanOffset] at h
  split_ifs at h with h1 h2
  · rw [Option.some.injEq] at h
    subst h
    refine ⟨h1, rfl, fun h0 => ?_, rfl, rfl⟩
    subst h0
    rcases h2 with h2 | h2
    · omega
    · exact h2

end Asus

/-- C1: the claim asserts that on a raw regression (`current < previous`) the code tries
wrap-around at bit-widths 64, 48, 32 and otherwise falls back to `delta = current`, never
zeroing the sample.  Counterexample: at `current = 5`, `previous = 10` (with `previous`
fitting in 32 bits) the claimed algorithm (`Asus.reconcileSpec`, modelled from the spec's
words) accepts the width-64 wrap candidate `5 + (2^64 - 10)`, but the code's
`Asus.calculateDelta` returns 0 — the sample is zeroed and no wrap candidate is ever tried. -/
theorem claim_C1_counterexample :
    (5 : Int) < 10 ∧ (10 : Int) < 2 ^ 32 ∧
    Asus.calculateDelta 5 10 = 0 ∧
    Asus.reconcileSpec 5 10 = 2 ^ 64 - 5 ∧
    Asus.calculateDelta 5 10 ≠ Asus.reconcileSpec 5 10 := by
  refine ⟨by norm_num, by norm_num, by norm_num [Asus.calculateDelta], ?_, ?_⟩ <;>
    norm_num [Asus.calculateDelta, Asus.reconcileSpec, List.find?]

/-- C1 (amended): for every counter series with a stored previous value, when the current raw
value is strictly less than the previous value the delta reconciliation performs no
wrap-around attempt at any bit-width and no `delta = current` hard reset: it returns delta 0
(the sample's increment is zeroed; the delta is still never negative). -/
theorem claim_C1 (current previous : Int) (h : current < previous) :
    Asus.calculateDelta current previous = 0 := by
  unfold Asus.calculateDelta
  rw [if_neg (not_le.mpr h)]

/-- Witness for C1: the amended claim at `current = 5`, `previous = 10`. -/
theorem claim_C1_witness : Asus.calculateDelta 5 10 = 0 :=
  claim_C1 5 10 (by norm_num)

/-- C2: for every pair of raw counter observations with `current >= previous` the delta
reconciliation (`_calculate_delta`) returns exactly `current - previous`, and for every pair
of inputs whatsoever it never returns a negative delta. -/
theorem claim_C2 (current previous : Int) :
    (previous ≤ current → Asus.calculateDelta current previous = current - previous) ∧
    0 ≤ Asus.calculateDelta current previous := by
  refine ⟨fun h => ?_, Asus.calculateDelta_nonneg current previous⟩
  unfold Asus.calculateDelta
  rw [if_pos h]

/-- Witness for C2 at `current = 7`, `previous = 3`. -/
theorem claim_C2_witness :
    Asus.calculateDelta 7 3 = 7 - 3 ∧ 0 ≤ Asus.calculateDelta 7 3 :=
  ⟨(claim_C2 7 3).1 (by norm_num), (claim_C2 7 3).2⟩

/-- C3: the first successful observation of any counter series yields delta 0 regardless of
the raw value's magnitude — for a CPU tick series (`_collect_cpu_metrics` with no previous
sample) both counter increments are 0 and the percent gauge is marked NaN, and for a
per-interface byte series (`_update_interface_metrics` with no previous sample) both deltas
are 0 — and in both cases the current raw value is stored as the baseline for the next
cycle. -/
theorem claim_C3 :
    (∀ cur : Int × Int, Asus.cpuCollectOne none cur =
      { usageInc := 0, totalInc := 0, percent := none, newPrev := cur }) ∧
    (∀ cur : Asus.ThroughputInfo, Asus.interfaceSeriesCycle none cur =
      ((0, 0), { tx := cur.total_upload_bytes, rx := cur.total_download_bytes })) :=
  ⟨fun _ => rfl, fun _ => rfl⟩

/-- C4: the CPU rate gauge `percent(delta_busy, delta_total)` is marked absent (NaN,
modelled as `none`) whenever `delta_total <= 0`; whenever `delta_total > 0` it equals
`delta_busy / delta_total * 100` clamped to `[0, 100]`, its value always lies in `[0, 100]`,
and for fixed `delta_total` it is monotonically non-decreasing in `delta_busy`. -/
theorem claim_C4 (du dt : Int) :
    (dt ≤ 0 → Asus.percentGauge du dt = none) ∧
    (0 < dt → Asus.percentGauge du dt =
      some (max 0 (min 100 ((du : ℚ) / (dt : ℚ) * 100)))) ∧
    (∀ q, Asus.percentGauge du dt = some q → 0 ≤ q ∧ q ≤ 100) ∧
    (∀ du' q q', du ≤ du' → Asus.percentGauge du dt = some q →
      Asus.percentGauge du' dt = some q' → q ≤ q') := by
  refine ⟨fun h => ?_, fun h => ?_, fun q hq => ?_, fun du' q q' hle hq hq' => ?_⟩
  · unfold Asus.percentGauge
    rw [if_neg (not_lt.mpr h)]
  · unfold Asus.percentGauge
    rw [if_pos h]
  · by_cases h : 0 < dt
    · unfold Asus.percentGauge at hq
      rw [if_pos h, Option.some.injEq] at hq
      subst hq
      exact ⟨le_max_left 0 _, max_le (by norm_num) (min_le_left 100 _)⟩
    · unfold Asus.percentGauge at hq
      rw [if_neg h] at hq
      exact absurd hq (Option.noConfusion)
  · by_cases h : 0 < dt
    · unfold Asus.percentGauge at hq hq'
      rw [if_pos h, Option.some.injEq] at hq hq'
      subst hq
      subst hq'
      have hdt : (0 : ℚ) < (dt : ℚ) := by exact_mod_cast h
      have hdu : (du : ℚ) ≤ (du' : ℚ) := by exact_mod_cast hle
      have hdiv : (du : ℚ) / (dt : ℚ) * 100 ≤ (du' : ℚ) / (dt : ℚ) * 100 :=
        mul_le_mul_of_nonneg_right ((div_le_div_iff_of_pos_right hdt).mpr hdu) (by norm_num)
      exact max_le_max le_rfl (min_le_min le_rfl hdiv)
    · unfold Asus.percentGauge at hq
      rw [if_neg h] at hq
      exact absurd hq (Option.noConfusion)

/-- Witness for C4 at `(delta_busy, delta_total) = (3, 0)` (absent) and `(50, 100)`
(defined, equal to the clamped ratio). -/
theorem claim_C4_witness :
    Asus.percentGauge 3 0 = none ∧
    Asus.percentGauge 50 100 = some (max 0 (min 100 ((50 : ℚ) / (100 : ℚ) * 100))) :=
  ⟨(claim_C4 3 0).1 (by norm_num), (claim_C4 50 100).2.1 (by norm_num)⟩

/-- C5: every published accumulated counter (CPU usage/total ticks and per-interface tx/rx
bytes alike) is monotonically non-decreasing: each cycle applies a non-negative increment to
the previously published value (the per-cycle step never decreases `published`), and hence
across every sequence of raw observations the published value never decreases. -/
theorem claim_C5 :
    (∀ current previous : Int, 0 ≤ Asus.calculateDelta current previous) ∧
    (∀ st cur, st.published ≤ (Asus.interfaceStep st cur).published) ∧
    (∀ st cur, st.published ≤ (Asus.cpuStep st cur).published) ∧
    (∀ st obs, st.published ≤ (Asus.runSeries Asus.interfaceStep st obs).published) ∧
    (∀ st obs, st.published ≤ (Asus.runSeries Asus.cpuStep st obs).published) :=
  ⟨Asus.calculateDelta_nonneg, Asus.interfaceStep_published_le, Asus.cpuStep_published_le,
   Asus.runSeries_published_le _ Asus.interfaceStep_published_le,
   Asus.runSeries_published_le _ Asus.cpuStep_published_le⟩

/-- C6: software-mode classification is a total function over the three raw fields — it is
exactly the top-to-bottom first-match-wins evaluation of the decision table with Router
(`RT`) as the default, for every combination of `sw_mode ∈ {2,3,5}`, `wlc_psta ∈ {0,1,2,3}`,
`wlc_express ∈ {0,1,2}` it returns one of the seven defined modes, when no rule matches it
returns Router, and the raw values pass through the non-throwing `safe_int` conversion. -/
theorem claim_C6 :
    (∀ s p e : Int, Asus.get_sw_mode_classify s p e =
      Asus.firstMatch Asus.swModeTable Asus.SwMode.RT s p e) ∧
    ((([2, 3, 5] : List Int).all fun s => (([0, 1, 2, 3] : List Int).all fun p =>
      (([0, 1, 2] : List Int).all fun e =>
        [Asus.SwMode.RE, Asus.SwMode.AP, Asus.SwMode.MB, Asus.SwMode.EW2, Asus.SwMode.EW5,
         Asus.SwMode.HS, Asus.SwMode.RT].contains (Asus.get_sw_mode_classify s p e)))) = true) ∧
    (∀ s p e : Int, (∀ r ∈ Asus.swModeTable, r.1 s p e = false) →
      Asus.get_sw_mode_classify s p e = Asus.SwMode.RT) ∧
    (∀ s : Int, ∀ praw eraw : Option Int, Asus.get_sw_mode s praw eraw =
      Asus.get_sw_mode_classify s (Asus.safe_int praw) (Asus.safe_int eraw)) := by
  refine ⟨fun s p e => rfl, by decide, fun s p e h => ?_, fun s praw eraw => rfl⟩
  exact Asus.firstMatch_eq_default Asus.swModeTable Asus.SwMode.RT s p e h

/-- Witness for C6: the default branch at `(sw_mode, wlc_psta, wlc_express) = (1, 0, 0)`,
where no rule of the table matches, yields Router. -/
theorem claim_C6_witness : Asus.get_sw_mode_classify 1 0 0 = Asus.SwMode.RT :=
  claim_C6.2.2.1 1 0 0 (by decide)

/-- C7: for every WAN unit the reported status is the tri-state — Standby exactly when
dual-WAN is enabled, the unit is not the active unit, and the dual-WAN mode is fail-over or
fail-back (regardless of the unit's raw link health); otherwise the status is Connected iff
the 4-tuple (state, substate, auxstate, internet-link) equals exactly
(CONNECTED, OK, CONNECTED, ONLINE), any deviation yielding Disconnected. -/
theorem claim_C7 (dual : Asus.DualWanInfo) (conn : Asus.WanConnectionInfo) (idx : Int) :
    ((Asus.get_wan_info dual conn idx).status =
      if dual.enabled = true ∧ dual.active_wan_unit ≠ idx ∧
         (dual.wans_mode = Asus.WanMode.FAIL_BACK ∨ dual.wans_mode = Asus.WanMode.FAIL_OVER)
      then Asus.WanStatus.STANDBY
      else if conn.state = Asus.WanState.CONNECTED ∧ conn.substate = Asus.WanSubState.OK ∧
              conn.auxstate = Asus.WanAuxState.CONNECTED ∧
              conn.link_internet = Asus.LinkInternet.ONLINE
           then Asus.WanStatus.CONNECTED
           else Asus.WanStatus.DISCONNECTED) ∧
    ((Asus.get_wan_info dual conn idx).status = Asus.WanStatus.STANDBY ↔
      dual.enabled = true ∧ dual.active_wan_unit ≠ idx ∧
      (dual.wans_mode = Asus.WanMode.FAIL_BACK ∨ dual.wans_mode = Asus.WanMode.FAIL_OVER)) := by
  have main : (Asus.get_wan_info dual conn idx).status =
      if dual.enabled = true ∧ dual.active_wan_unit ≠ idx ∧
         (dual.wans_mode = Asus.WanMode.FAIL_BACK ∨ dual.wans_mode = Asus.WanMode.FAIL_OVER)
      then Asus.WanStatus.STANDBY
      else if conn.state = Asus.WanState.CONNECTED ∧ conn.substate = Asus.WanSubState.OK ∧
              conn.auxstate = Asus.WanAuxState.CONNECTED ∧
              conn.link_internet = Asus.LinkInternet.ONLINE
           then Asus.WanStatus.CONNECTED
           else Asus.WanStatus.DISCONNECTED := by
    show (if dual.enabled = true ∧ dual.active_wan_unit ≠ idx ∧
             (dual.wans_mode = Asus.WanMode.FAIL_BACK ∨ dual.wans_mode = Asus.WanMode.FAIL_OVER)
          then Asus.WanStatus.STANDBY
          else if conn.is_connected then Asus.WanStatus.CONNECTED
               else Asus.WanStatus.DISCONNECTED) = _
    split_ifs with h1 h2 h3 h4 <;> first
      | rfl
      | (exact absurd ((Asus.is_connected_iff conn).mp (by assumption)) (by tauto))
      | (exact absurd ((Asus.is_connected_iff conn).mpr (by tauto)) (by simp_all))
  refine ⟨main, ?_⟩
  rw [main]
  by_cases hP : dual.enabled = true ∧ dual.active_wan_unit ≠ idx ∧
      (dual.wans_mode = Asus.WanMode.FAIL_BACK ∨ dual.wans_mode = Asus.WanMode.FAIL_OVER)
  · simp [hP]
  · rw [if_neg hP]
    constructor
    · intro h
      split_ifs at h
    · intro h
      exact absurd h hP

/-- Witness for C7: dual-WAN enabled with active unit 0 in fail-over mode — unit 1 reports
Standby even though its raw connection 4-tuple is fully healthy. -/
theorem claim_C7_witness :
    (Asus.get_wan_info
      { enabled := true, active_wan_unit := 0, wans_mode := Asus.WanMode.FAIL_OVER }
      { state := Asus.WanState.CONNECTED, substate := Asus.WanSubState.OK,
        auxstate := Asus.WanAuxState.CONNECTED, link_internet := Asus.LinkInternet.ONLINE }
      1).status = Asus.WanStatus.STANDBY :=
  (claim_C7
    { enabled := true, active_wan_unit := 0, wans_mode := Asus.WanMode.FAIL_OVER }
    { state := Asus.WanState.CONNECTED, substate := Asus.WanSubState.OK,
      auxstate := Asus.WanAuxState.CONNECTED, link_internet := Asus.LinkInternet.ONLINE }
    1).2.mpr ⟨rfl, by decide, Or.inr rfl⟩

/-- C10: whenever the software mode classifies as AccessPoint, the network WAN summary
populates `lan_info` with state hardcoded to CONNECTED — unconditionally in all raw router
fields — and no primary WAN, secondary WAN, or dual-WAN fields are populated. -/
theorem claim_C10 (sw : Int) (praw eraw : Option Int) (li : Asus.LinkInternet)
    (dual : Asus.DualWanInfo) (conn0 conn1 : Asus.WanConnectionInfo)
    (ip : String) (proto : Asus.LanProtoType)
    (h : Asus.get_sw_mode sw praw eraw = Asus.SwMode.AP) :
    (Asus.get_network_wan_info sw praw eraw li dual conn0 conn1 ip proto).lan_info =
      some { state := Asus.LanState.CONNECTED, ipaddr := ip, proto := proto } ∧
    (Asus.get_network_wan_info sw praw eraw li dual conn0 conn1 ip proto).primary_wan = none ∧
    (Asus.get_network_wan_info sw praw eraw li dual conn0 conn1 ip proto).secondary_wan = none ∧
    (Asus.get_network_wan_info sw praw eraw li dual conn0 conn1 ip proto).dual_wan_info = none ∧
    (Asus.get_network_wan_info sw praw eraw li dual conn0 conn1 ip proto).mode =
      Asus.SwMode.AP := by
  simp [Asus.get_network_wan_info, h]

/-- Witness for C10 at raw fields `(3, 0, 0)` (which classify as AccessPoint) and an
arbitrary concrete remainder of the cycle. -/
theorem claim_C10_witness :
    (Asus.get_network_wan_info 3 (some 0) (some 0) Asus.LinkInternet.OFFLINE
      { enabled := false, active_wan_unit := 0, wans_mode := Asus.WanMode.LOAD_BALANCE }
      { state := Asus.WanState.IDLE, substate := Asus.WanSubState.OK,
        auxstate := Asus.WanAuxState.DISCONNECTED, link_internet := Asus.LinkInternet.OFFLINE }
      { state := Asus.WanState.IDLE, substate := Asus.WanSubState.OK,
        auxstate := Asus.WanAuxState.DISCONNECTED, link_internet := Asus.LinkInternet.OFFLINE }
      "10.0.0.2" Asus.LanProtoType.DHCP).lan_info =
      some { state := Asus.LanState.CONNECTED, ipaddr := "10.0.0.2",
             proto := Asus.LanProtoType.DHCP } :=
  (claim_C10 3 (some 0) (some 0) Asus.LinkInternet.OFFLINE
    { enabled := false, active_wan_unit := 0, wans_mode := Asus.WanMode.LOAD_BALANCE }
    { state := Asus.WanState.IDLE, substate := Asus.WanSubState.OK,
      auxstate := Asus.WanAuxState.DISCONNECTED, link_internet := Asus.LinkInternet.OFFLINE }
    { state := Asus.WanState.IDLE, substate := Asus.WanSubState.OK,
      auxstate := Asus.WanAuxState.DISCONNECTED, link_internet := Asus.LinkInternet.OFFLINE }
    "10.0.0.2" Asus.LanProtoType.DHCP rfl).1

/-- C8: the reboot-schedule next-occurrence computation scans forward from now across day
offsets 0..7; a returned occurrence comes from the first day offset whose weekday-mask bit
(tested by `is_weekday_enabled` at position `6 - ((calendar_weekday + 1) mod 7)`) is set,
carries the schedule's hour/minute with seconds and microseconds zeroed (`set_time`), with
offset 0 accepted only if that time-of-day is not already past; the result is `none` when no
day matches (all-zero mask); and for a mask that selects only Wednesday with hh=3, mm=30 and
now = Tuesday 03:00:00, the next occurrence is Wednesday 03:30:00 with an until-delta of
24h30m = 88200000 milliseconds. -/
theorem claim_C8 :
    (∀ mask hh mm : Nat, ∀ w : Nat,
      Asus.RebootScheduleConf.is_weekday_enabled ⟨mask, hh, mm⟩ w =
        (((mask >>> (6 - (w + 1) % 7)) &&& 1) == 1)) ∧
    (∀ hh mm : Nat, ∀ st : Asus.PyDateTime,
      Asus.get_reboot_schedule_time ⟨0, hh, mm⟩ st = none) ∧
    (Asus.get_reboot_schedule_time ⟨8, 3, 30⟩ ⟨1, 3, 0, 0, 0⟩ =
      some ⟨⟨2, 3, 30, 0, 0⟩, 88200000, ⟨8, 3, 30⟩⟩) ∧
    (∀ conf st r, Asus.get_reboot_schedule_time conf st = some r →
      ∃ δ ≤ 7, Asus.scanOffset conf st δ = some r ∧
        ∀ δ' < δ, Asus.scanOffset conf st δ' = none) ∧
    (∀ conf st δ r, Asus.scanOffset conf st δ = some r →
      Asus.RebootScheduleConf.is_weekday_enabled conf (st.addDays δ).weekday = true ∧
      r.next_at = Asus.RebootScheduleConf.set_time conf (st.addDays δ) ∧
      (δ = 0 → st.toMicros ≤ r.next_at.toMicros) ∧
      r.until_ms =
        max 0 (Int.tdiv ((r.next_at.toMicros : Int) - (st.toMicros : Int)) 1000) ∧
      r.schedule = conf) := by
  refine ⟨fun mask hh mm w => rfl, fun hh mm st => ?_, by decide, fun conf st r h => ?_,
    Asus.scanOffset_some_spec⟩
  · refine Asus.rebootScan_eq_none _ _ (fun δ => ?_) 0 8
    simp [Asus.scanOffset, Asus.RebootScheduleConf.is_weekday_enabled]
  · obtain ⟨δ, h1, h2, h3, h4⟩ := Asus.rebootScan_some _ _ 0 8 r h
    exact ⟨δ, by omega, h3, fun δ' hlt => h4 δ' (Nat.zero_le _) hlt⟩

/-- Witness for C8: the scan characterization applied to the concrete Tuesday/Wednesday
example. -/
theorem claim_C8_witness :
    (∃ δ ≤ 7, Asus.scanOffset ⟨8, 3, 30⟩ ⟨1, 3, 0, 0, 0⟩ δ =
        some ⟨⟨2, 3, 30, 0, 0⟩, 88200000, ⟨8, 3, 30⟩⟩ ∧
      ∀ δ' < δ, Asus.scanOffset ⟨8, 3, 30⟩ ⟨1, 3, 0, 0, 0⟩ δ' = none) ∧
    Asus.RebootScheduleConf.is_weekday_enabled ⟨8, 3, 30⟩
      ((Asus.PyDateTime.addDays ⟨1, 3, 0, 0, 0⟩ 1).weekday) = true :=
  ⟨claim_C8.2.2.2.1 ⟨8, 3, 30⟩ ⟨1, 3, 0, 0, 0⟩
     ⟨⟨2, 3, 30, 0, 0⟩, 88200000, ⟨8, 3, 30⟩⟩ claim_C8.2.2.1,
   (claim_C8.2.2.2.2 ⟨8, 3, 30⟩ ⟨1, 3, 0, 0, 0⟩ 1
     ⟨⟨2, 3, 30, 0, 0⟩, 88200000, ⟨8, 3, 30⟩⟩ (by decide)).1⟩

/-- C9 counterexample: the claim states that a failure while collecting any one metric
domain is caught without aborting the remaining domains and that no failure inside the core
collection is fatal; but in the cycle where only the WAN fetch fails
(`_collect_wan_info_metrics` has no exception handler), the wireless domain is never
collected and the exception propagates out of `collect_all_metrics` (and, re-raised by the
`create_app` loop, kills the process). -/
theorem claim_C9_counterexample :
    (Asus.collect_all_metrics ⟨true, false, true, true, true, true, false, true⟩).raised =
      true ∧
    Asus.Domain.wireless ∉
      (Asus.collect_all_metrics ⟨true, false, true, true, true, true, false, true⟩).completed ∧
    (Asus.collect_all_metrics ⟨true, false, true, true, true, true, false, true⟩).errors =
      1 := by
  decide

/-- C9 (amended): failures of the temperature, CPU, memory, and network fetches are caught
inside their collectors and never abort the cycle — with router info available and the WAN
and wireless fetches succeeding, every domain is collected, no error is counted, and nothing
propagates, regardless of whether those four fetches fail; but a WAN fetch failure is
counted and re-raised, skipping the wireless domain, and a wireless fetch failure is counted
and re-raised — both are fatal to the process. -/
theorem claim_C9 (c : Asus.ClientCycle) (hinfo : c.info_ok = true)
    (hpid : c.product_id_empty = false) :
    (c.wan_ok = true → c.wireless_ok = true →
      (Asus.collect_all_metrics c).raised = false ∧
      (Asus.collect_all_metrics c).errors = 0 ∧
      (Asus.collect_all_metrics c).completed =
        [Asus.Domain.router_info, Asus.Domain.temperature, Asus.Domain.cpu,
         Asus.Domain.memory, Asus.Domain.network, Asus.Domain.wan, Asus.Domain.wireless]) ∧
    (c.wan_ok = false →
      (Asus.collect_all_metrics c).raised = true ∧
      (Asus.collect_all_metrics c).errors = 1 ∧
      (Asus.collect_all_metrics c).completed =
        [Asus.Domain.router_info, Asus.Domain.temperature, Asus.Domain.cpu,
         Asus.Domain.memory, Asus.Domain.network]) ∧
    (c.wan_ok = true → c.wireless_ok = false →
      (Asus.collect_all_metrics c).raised = true ∧
      (Asus.collect_all_metrics c).errors = 1 ∧
      (Asus.collect_all_metrics c).completed =
        [Asus.Domain.router_info, Asus.Domain.temperature, Asus.Domain.cpu,
         Asus.Domain.memory, Asus.Domain.network, Asus.Domain.wan]) := by
  obtain ⟨io, pe, t, cu, m, n, w, wl⟩ := c
  simp only at hinfo hpid
  subst hinfo
  subst hpid
  cases t <;> cases cu <;> cases m <;> cases n <;> cases w <;> cases wl <;> decide

/-- Witness for C9: a cycle in which the temperature, CPU, memory, and network fetches all
fail while WAN and wireless succeed still collects every domain without raising. -/
theorem claim_C9_witness :
    (Asus.collect_all_metrics ⟨true, false, false, false, false, false, true, true⟩).raised =
      false ∧
    (Asus.collect_all_metrics ⟨true, false, false, false, false, false, true, true⟩).errors =
      0 ∧
    (Asus.collect_all_metrics ⟨true, false, false, false, false, false, true, true⟩).completed =
      [Asus.Domain.router_info, Asus.Domain.temperature, Asus.Domain.cpu, Asus.Domain.memory,
       Asus.Domain.network, Asus.Domain.wan, Asus.Domain.wireless] :=
  (claim_C9 ⟨true, false, false, false, false, false, true, true⟩ rfl rfl).1 rfl rfl
